import Mathlib

/-
Verification of the slideshow playback engine of the screensaver app.

The definitions below are shallow embeddings of the engine in src/src/main.js
(line references point there) and of the fade-transition constants in
src/src/style.css.  JavaScript numbers that hold array indices or counts are
modelled as Nat; millisecond durations (which flow through parseInt and may be
NaN) are modelled as Int with NaN made explicit as Option.  The stream of
Math.random draws used by the Fisher-Yates shuffle is passed in explicitly as a
choice function.
-/

namespace Screensaver

/-- Swap the entries at positions i and j of a list: the JS destructuring swap
on line 437 of main.js.  Out-of-range reads default to 0; at every use site
both indices are in range. -/
def listSwap (l : List Nat) (i j : Nat) : List Nat :=
  (l.set i (l.getD j 0)).set j (l.getD i 0)

/-- The Fisher-Yates loop of generateDisplayOrder (main.js lines 434-438):
for i from order.length - 1 down to 1, swap order[i] with order[j] where
j = Math.floor(Math.random() * (i + 1)).  The first argument of the choice
function c models that draw: c i stands for the j drawn when the loop counter
is i, so a faithful run has c i ≤ i. -/
def fyLoop (c : Nat → Nat) : Nat → List Nat → List Nat
  | 0, l => l
  | i + 1, l => fyLoop c i (listSwap l (i + 1) (c (i + 1)))

/-- generateDisplayOrder (main.js lines 426-442).  The JS function reads the
module flag randomizeOrder; here that flag and the stream of random draws are
explicit arguments. -/
def generateDisplayOrder (length : Nat) (randomizeOrder : Bool) (c : Nat → Nat) :
    List Nat :=
  if length = 0 then []
  else
    let order := List.range length
    if randomizeOrder then fyLoop c (length - 1) order else order

/-- The module-level mutable state of main.js (lines 68-86) restricted to the
fields the playback engine reads and writes.  selectedCount stands for
selectedImages.length; intervalPeriod is the slideshowInterval handle (the
period of the live interval, none when the handle is null); pendingStart
records a queued setTimeout(startSlideshow, d) issued by resetSlideshowTimer
(d milliseconds until it fires).  displayDuration is in milliseconds. -/
structure EngineState where
  selectedCount : Nat
  displayOrder : List Nat
  currentOrderIndex : Nat
  currentImageIndex : Nat
  intervalPeriod : Option Int
  pendingStart : Option Int
  displayDuration : Int
  randomizeOrder : Bool
  deriving DecidableEq

/-- stopSlideshow (main.js lines 815-818): clearInterval and null the handle. -/
def stopSlideshow (s : EngineState) : EngineState :=
  { s with intervalPeriod := none }

/-- startSlideshow (main.js lines 800-810): clear any existing interval, then
start a fresh interval at displayDuration only when more than one image is
selected. -/
def startSlideshow (s : EngineState) : EngineState :=
  let s := stopSlideshow s
  if s.selectedCount > 1 then { s with intervalPeriod := some s.displayDuration }
  else s

/-- The settle delay of resetSlideshowTimer (main.js line 793): the new
slideshow cycle is started 600 ms after the manual navigation, slightly longer
than the 500 ms transition. -/
def resetSettleDelayMs : Int := 600

/-- resetSlideshowTimer (main.js lines 783-795): only when an interval is
live, stop it and queue setTimeout(startSlideshow, 600).  A pre-existing
queued timeout is modelled as overwritten by the new one (in JS both fire and
the later startSlideshow call wins, since startSlideshow first clears the
interval set by the earlier one). -/
def resetSlideshowTimer (s : EngineState) : EngineState :=
  if s.intervalPeriod.isSome then
    let s := stopSlideshow s
    { s with pendingStart := some resetSettleDelayMs }
  else s

/-- nextImage (main.js lines 743-758).  The displayImage and preloadImages
calls touch only the DOM and the preload cache, not the modelled fields.
JS reads displayOrder[currentOrderIndex]; the modulo keeps the index in range
whenever displayOrder is non-empty, and the getD default covers the
out-of-range read (undefined in JS) that only an empty order could produce. -/
def nextImage (s : EngineState) : EngineState :=
  if s.selectedCount = 0 then s
  else
    let coi := (s.currentOrderIndex + 1) % s.displayOrder.length
    let cii := s.displayOrder.getD coi 0
    resetSlideshowTimer { s with currentOrderIndex := coi, currentImageIndex := cii }

/-- previousImage (main.js lines 763-778).  JS computes
(currentOrderIndex - 1 + len) % len over ints; for len ≥ 1 this equals the Nat
expression (currentOrderIndex + len - 1) % len used here. -/
def previousImage (s : EngineState) : EngineState :=
  if s.selectedCount = 0 then s
  else
    let len := s.displayOrder.length
    let coi := (s.currentOrderIndex + len - 1) % len
    let cii := s.displayOrder.getD coi 0
    resetSlideshowTimer { s with currentOrderIndex := coi, currentImageIndex := cii }

/-- The restart button click handler (main.js lines 599-608): set
currentImageIndex to 0, stop the current cycle, and when any image is selected
display image 0 and start a new cycle.  The handler never touches
currentOrderIndex. -/
def restartClick (s : EngineState) : EngineState :=
  let s := { s with currentImageIndex := 0 }
  let s := stopSlideshow s
  if s.selectedCount > 0 then startSlideshow s else s

/-- The randomize checkbox change handler (main.js lines 544-559): record the
new flag; when the slideshow interval is live, regenerate displayOrder and set
currentOrderIndex to indexOf(currentImageIndex), falling back to 0 when the
search fails.  JS indexOf signals absence with -1; List.indexOf signals it by
returning the length, so the found test is written found < ord.length. -/
def toggleRandomize (checked : Bool) (c : Nat → Nat) (s : EngineState) :
    EngineState :=
  let s := { s with randomizeOrder := checked }
  if s.intervalPeriod.isSome then
    let ord := generateDisplayOrder s.selectedCount s.randomizeOrder c
    let found := ord.indexOf s.currentImageIndex
    let coi := if found < ord.length then found else 0
    { s with displayOrder := ord, currentOrderIndex := coi }
  else s

/-- The fullscreen-entered branch of handleFullscreenChange (main.js lines
874-896), paired with the message it shows.  With an empty selection it exits
fullscreen and shows a message, leaving order, cursor and timer untouched.
Otherwise it regenerates displayOrder, resets the cursor (JS
displayOrder[0] || 0 is getD 0 0 over Nat entries) and starts the slideshow. -/
def handleFullscreenEnter (c : Nat → Nat) (s : EngineState) :
    EngineState × List String :=
  if s.selectedCount = 0 then
    (s, ["No images selected. Please select at least one image."])
  else
    let ord := generateDisplayOrder s.selectedCount s.randomizeOrder c
    let s := { s with displayOrder := ord, currentOrderIndex := 0,
                      currentImageIndex := ord.getD 0 0 }
    (startSlideshow s, [])

/-- The duration update at the top of requestFullscreen (main.js lines
824-829).  parsed is the result of parseInt(durationInput.value, 10), with
NaN made explicit as none.  The result pairs the new displayDuration in
milliseconds with the value written back into the duration input (none when
the input is left as typed).  NaN propagates through the multiplication, and
isNaN(displayDuration) || displayDuration < 1000 selects the 5000 ms fallback
and writes 5 back. -/
def requestFullscreenDuration (parsed : Option Int) : Int × Option Int :=
  match parsed with
  | none => (5000, some 5)
  | some v => if v * 1000 < 1000 then (5000, some 5) else (v * 1000, none)

/-- The start button click handler (main.js lines 584-591), paired with the
message it shows.  With a non-empty selection it calls requestFullscreen,
whose modelled state effects are the duration update and the randomize flag
refresh (lines 824-832); the fullscreen request itself is external.  With an
empty selection it only shows a message. -/
def startButtonClick (parsed : Option Int) (checked : Bool) (s : EngineState) :
    EngineState × List String :=
  if s.selectedCount > 0 then
    ({ s with displayDuration := (requestFullscreenDuration parsed).1,
              randomizeOrder := checked }, [])
  else
    (s, ["No images available to display."])

/-- The opacity transition duration of the fullscreen image element
(src/src/style.css line 220: transition opacity 0.5s), in milliseconds. -/
def fadeTransitionMs : Nat := 500

/-- The setTimeout delay between the target image load event and the source
swap inside displayImage (main.js lines 684-696 and the error path lines
707-714): 250 ms, which the source comment calls half the transition time. -/
def swapDelayMs : Nat := 250

/-- displayImage adds the fade-out class synchronously on entry (main.js line
674), so with time 0 at the call, the fade-out of the currently displayed
image completes at fadeTransitionMs. -/
def fadeOutCompleteTime : Nat := fadeTransitionMs

/-- The time at which displayImage swaps the visible image source, when the
target image load event fires at time tLoad: the swap is scheduled
swapDelayMs after the load event (main.js lines 679-696). -/
def sourceSwapTime (tLoad : Nat) : Nat := tLoad + swapDelayMs

/-- Observation on the timer model: the time from now until the next automatic
nextImage tick, assuming no further user events.  A live interval fires after
its period; a queued setTimeout(startSlideshow, d) fires startSlideshow after
d ms, which schedules an interval firing displayDuration later when more than
one image is selected and otherwise creates no timer. -/
def delayUntilNextAutoAdvance (s : EngineState) : Option Int :=
  match s.intervalPeriod with
  | some p => some p
  | none =>
    match s.pendingStart with
    | some d => if s.selectedCount > 1 then some (d + s.displayDuration) else none
    | none => none

/-- The PlaybackCursor invariant of the spec data model: orderPosition in
bounds and imageIndex in lockstep with DisplayOrder. -/
def cursorInv (s : EngineState) : Prop :=
  s.currentOrderIndex < s.displayOrder.length ∧
  s.currentImageIndex = s.displayOrder.getD s.currentOrderIndex 0

instance (s : EngineState) : Decidable (cursorInv s) := by
  unfold cursorInv
  infer_instance

/-
Helper lemmas.
-/

theorem listSwap_length (l : List Nat) (i j : Nat) :
    (listSwap l i j).length = l.length := by
  simp [listSwap]

theorem listSwap_count (l : List Nat) (i j x : Nat)
    (hi : i < l.length) (hj : j < l.length) :
    (listSwap l i j).count x = l.count x := by
  unfold listSwap
  rw [List.getD_eq_getElem l 0 hj, List.getD_eq_getElem l 0 hi]
  have hj2 : j < (l.set i l[j]).length := by
    simpa using hj
  have hmj : (l.set i l[j])[j] = l[j] := by
    by_cases hij : i = j
    · subst hij
      exact List.getElem_set_self hj2
    · exact List.getElem_set_ne hij hj2
  rw [List.count_set l[i] x _ j hj2, hmj, List.count_set l[j] x l i hi]
  by_cases h1 : l[i] = x <;> by_cases h2 : l[j] = x
  · have hpos : 0 < l.count x := List.count_pos_iff.2 (h1 ▸ List.getElem_mem hi)
    simp [h1, h2]
    omega
  · have hpos : 0 < l.count x := List.count_pos_iff.2 (h1 ▸ List.getElem_mem hi)
    simp [h1, h2]
    omega
  · simp [h1, h2]
  · simp [h1, h2]

theorem listSwap_perm (l : List Nat) (i j : Nat)
    (hi : i < l.length) (hj : j < l.length) :
    (listSwap l i j).Perm l :=
  List.perm_iff_count.2 fun x => listSwap_count l i j x hi hj

theorem fyLoop_perm (c : Nat → Nat) (hc : ∀ i, c i ≤ i) :
    ∀ (k : Nat) (l : List Nat), k < l.length → (fyLoop c k l).Perm l := by
  intro k
  induction k with
  | zero => intro l _; exact List.Perm.refl l
  | succ n ih =>
    intro l hk
    have hci : c (n + 1) < l.length := lt_of_le_of_lt (hc (n + 1)) hk
    have hswap : (listSwap l (n + 1) (c (n + 1))).Perm l :=
      listSwap_perm l (n + 1) (c (n + 1)) hk hci
    have hlen : n < (listSwap l (n + 1) (c (n + 1))).length := by
      rw [listSwap_length]
      omega
    exact (ih _ hlen).trans hswap

theorem generateDisplayOrder_perm (n : Nat) (r : Bool) (c : Nat → Nat)
    (hc : ∀ i, c i ≤ i) :
    (generateDisplayOrder n r c).Perm (List.range n) := by
  unfold generateDisplayOrder
  by_cases hn : n = 0
  · simp [hn]
  · simp only [hn, if_false]
    cases r with
    | false => simp
    | true =>
      simp only [if_true]
      have hlt : n - 1 < (List.range n).length := by
        rw [List.length_range]
        omega
      exact fyLoop_perm c hc (n - 1) (List.range n) hlt

theorem generateDisplayOrder_length (n : Nat) (r : Bool) (c : Nat → Nat)
    (hc : ∀ i, c i ≤ i) :
    (generateDisplayOrder n r c).length = n := by
  have := (generateDisplayOrder_perm n r c hc).length_eq
  simpa using this

/-
Claim theorems.
-/

/-- Claim C1: for every n ≥ 1, generating the display order with randomize
enabled — the Fisher-Yates loop that walks from the last index down to 1 and
swaps position i with a drawn index in [0, i] — returns a permutation of
[0..n-1]: the same multiset as List.range n, every value of [0..n-1] appearing
exactly once. -/
theorem generate_randomized_is_permutation (n : Nat) (c : Nat → Nat)
    (_hn : 1 ≤ n) (hc : ∀ i, c i ≤ i) :
    (generateDisplayOrder n true c).Perm (List.range n) ∧
    ∀ v, v < n → (generateDisplayOrder n true c).count v = 1 := by
  have hperm := generateDisplayOrder_perm n true c hc
  refine ⟨hperm, fun v hv => ?_⟩
  rw [List.perm_iff_count.1 hperm v]
  exact List.count_eq_one_of_mem (List.nodup_range n) (List.mem_range.2 hv)

/-- Witness for C1 at n = 4 with the draw stream that always picks index 0. -/
theorem generate_randomized_is_permutation_witness :
    (1 ≤ 4 ∧ ∀ i : Nat, (fun _ : Nat => 0) i ≤ i) ∧
    ((generateDisplayOrder 4 true (fun _ => 0)).Perm (List.range 4) ∧
      ∀ v, v < 4 → (generateDisplayOrder 4 true (fun _ => 0)).count v = 1) :=
  ⟨⟨by decide, fun i => Nat.zero_le i⟩,
    generate_randomized_is_permutation 4 (fun _ => 0) (by decide)
      (fun i => Nat.zero_le i)⟩

/-- Claim C2: for every n ≥ 0, generating the display order with randomize
disabled returns exactly the identity sequence [0, 1, ..., n-1]; in particular
for n = 0 it returns the empty sequence. -/
theorem generate_sequential_is_identity (n : Nat) (c : Nat → Nat) :
    generateDisplayOrder n false c = List.range n := by
  unfold generateDisplayOrder
  by_cases hn : n = 0 <;> simp [hn]

/-
Field bookkeeping: resetSlideshowTimer and startSlideshow only touch the timer
fields, never the cursor, the order, the selection count or the duration.
-/

@[simp] theorem resetSlideshowTimer_displayOrder (s : EngineState) :
    (resetSlideshowTimer s).displayOrder = s.displayOrder := by
  unfold resetSlideshowTimer stopSlideshow
  split <;> rfl

@[simp] theorem resetSlideshowTimer_currentOrderIndex (s : EngineState) :
    (resetSlideshowTimer s).currentOrderIndex = s.currentOrderIndex := by
  unfold resetSlideshowTimer stopSlideshow
  split <;> rfl

@[simp] theorem resetSlideshowTimer_currentImageIndex (s : EngineState) :
    (resetSlideshowTimer s).currentImageIndex = s.currentImageIndex := by
  unfold resetSlideshowTimer stopSlideshow
  split <;> rfl

@[simp] theorem resetSlideshowTimer_selectedCount (s : EngineState) :
    (resetSlideshowTimer s).selectedCount = s.selectedCount := by
  unfold resetSlideshowTimer stopSlideshow
  split <;> rfl

@[simp] theorem resetSlideshowTimer_displayDuration (s : EngineState) :
    (resetSlideshowTimer s).displayDuration = s.displayDuration := by
  unfold resetSlideshowTimer stopSlideshow
  split <;> rfl

@[simp] theorem startSlideshow_displayOrder (s : EngineState) :
    (startSlideshow s).displayOrder = s.displayOrder := by
  unfold startSlideshow stopSlideshow
  by_cases h : s.selectedCount > 1 <;> simp [h]

@[simp] theorem startSlideshow_currentOrderIndex (s : EngineState) :
    (startSlideshow s).currentOrderIndex = s.currentOrderIndex := by
  unfold startSlideshow stopSlideshow
  by_cases h : s.selectedCount > 1 <;> simp [h]

@[simp] theorem startSlideshow_currentImageIndex (s : EngineState) :
    (startSlideshow s).currentImageIndex = s.currentImageIndex := by
  unfold startSlideshow stopSlideshow
  by_cases h : s.selectedCount > 1 <;> simp [h]

@[simp] theorem startSlideshow_selectedCount (s : EngineState) :
    (startSlideshow s).selectedCount = s.selectedCount := by
  unfold startSlideshow stopSlideshow
  by_cases h : s.selectedCount > 1 <;> simp [h]

theorem startSlideshow_intervalPeriod (s : EngineState) :
    (startSlideshow s).intervalPeriod =
      if s.selectedCount > 1 then some s.displayDuration else none := by
  unfold startSlideshow stopSlideshow
  by_cases h : s.selectedCount > 1 <;> simp [h]

theorem nextImage_eq (s : EngineState) (h : ¬ s.selectedCount = 0) :
    nextImage s =
      resetSlideshowTimer
        { s with
          currentOrderIndex := (s.currentOrderIndex + 1) % s.displayOrder.length,
          currentImageIndex :=
            s.displayOrder.getD ((s.currentOrderIndex + 1) % s.displayOrder.length) 0 } := by
  simp [nextImage, h]

theorem previousImage_eq (s : EngineState) (h : ¬ s.selectedCount = 0) :
    previousImage s =
      resetSlideshowTimer
        { s with
          currentOrderIndex :=
            (s.currentOrderIndex + s.displayOrder.length - 1) % s.displayOrder.length,
          currentImageIndex :=
            s.displayOrder.getD
              ((s.currentOrderIndex + s.displayOrder.length - 1) % s.displayOrder.length) 0 } := by
  simp [previousImage, h]

theorem advance_retreat_mod_cancel (i len : Nat) (h : i < len) :
    ((i + 1) % len + len - 1) % len = i := by
  rcases Nat.lt_or_ge (i + 1) len with h1 | h1
  · rw [Nat.mod_eq_of_lt h1]
    have he : i + 1 + len - 1 = i + len := by omega
    rw [he, Nat.add_mod_right]
    exact Nat.mod_eq_of_lt h
  · have h2 : i + 1 = len := by omega
    rw [h2, Nat.mod_self]
    have he : 0 + len - 1 = i := by omega
    rw [he]
    exact Nat.mod_eq_of_lt h

/-- Claim C6: from any active playback state with a non-empty display order
(cursor in bounds and in lockstep), Advance followed by Retreat restores both
the original orderPosition and the original imageIndex. -/
theorem advance_then_retreat_restores_cursor (s : EngineState)
    (hsel : 0 < s.selectedCount)
    (hpos : s.currentOrderIndex < s.displayOrder.length)
    (hlock : s.currentImageIndex = s.displayOrder.getD s.currentOrderIndex 0) :
    (previousImage (nextImage s)).currentOrderIndex = s.currentOrderIndex ∧
    (previousImage (nextImage s)).currentImageIndex = s.currentImageIndex := by
  have hsel0 : ¬ s.selectedCount = 0 := by omega
  have h1 : ¬ (nextImage s).selectedCount = 0 := by
    rw [nextImage_eq s hsel0]
    simpa using hsel0
  rw [previousImage_eq _ h1, nextImage_eq s hsel0]
  simp only [resetSlideshowTimer_currentOrderIndex, resetSlideshowTimer_currentImageIndex,
    resetSlideshowTimer_displayOrder]
  simp only [advance_retreat_mod_cancel s.currentOrderIndex s.displayOrder.length hpos]
  exact ⟨trivial, hlock.symm⟩

/-- Witness for C6 on a concrete two-image shuffled state. -/
theorem advance_then_retreat_restores_cursor_witness :
    (0 < (⟨2, [1, 0], 0, 1, some 5000, none, 5000, true⟩ : EngineState).selectedCount ∧
      (⟨2, [1, 0], 0, 1, some 5000, none, 5000, true⟩ : EngineState).currentOrderIndex <
        (⟨2, [1, 0], 0, 1, some 5000, none, 5000, true⟩ : EngineState).displayOrder.length) ∧
    ((previousImage (nextImage ⟨2, [1, 0], 0, 1, some 5000, none, 5000, true⟩)).currentOrderIndex =
        (⟨2, [1, 0], 0, 1, some 5000, none, 5000, true⟩ : EngineState).currentOrderIndex ∧
      (previousImage (nextImage ⟨2, [1, 0], 0, 1, some 5000, none, 5000, true⟩)).currentImageIndex =
        (⟨2, [1, 0], 0, 1, some 5000, none, 5000, true⟩ : EngineState).currentImageIndex) :=
  ⟨⟨by decide, by decide⟩,
    advance_then_retreat_restores_cursor ⟨2, [1, 0], 0, 1, some 5000, none, 5000, true⟩
      (by decide) (by decide) (by decide)⟩

/-- Claim C7: with exactly one selected image (and the one-element display
order Enter builds for it), entering the slideshow creates no auto-advance
interval, and Advance and Retreat leave orderPosition at 0 because every value
modulo a length of 1 is 0. -/
theorem single_image_no_timer_and_nav_noop (s : EngineState) (c : Nat → Nat)
    (hsel : s.selectedCount = 1) (hlen : s.displayOrder.length = 1) :
    (handleFullscreenEnter c s).1.intervalPeriod = none ∧
    (nextImage s).currentOrderIndex = 0 ∧
    (previousImage s).currentOrderIndex = 0 := by
  refine ⟨?_, ?_, ?_⟩
  · unfold handleFullscreenEnter
    rw [if_neg (by omega)]
    rw [startSlideshow_intervalPeriod]
    simp [hsel]
  · rw [nextImage_eq s (by omega)]
    simp [hlen, Nat.mod_one]
  · rw [previousImage_eq s (by omega)]
    simp [hlen, Nat.mod_one]

/-- Witness for C7 on the concrete single-image state. -/
theorem single_image_no_timer_and_nav_noop_witness :
    ((⟨1, [0], 0, 0, none, none, 5000, false⟩ : EngineState).selectedCount = 1 ∧
      (⟨1, [0], 0, 0, none, none, 5000, false⟩ : EngineState).displayOrder.length = 1) ∧
    ((handleFullscreenEnter (fun _ => 0) ⟨1, [0], 0, 0, none, none, 5000, false⟩).1.intervalPeriod =
        none ∧
      (nextImage ⟨1, [0], 0, 0, none, none, 5000, false⟩).currentOrderIndex = 0 ∧
      (previousImage ⟨1, [0], 0, 0, none, none, 5000, false⟩).currentOrderIndex = 0) :=
  ⟨⟨by decide, by decide⟩,
    single_image_no_timer_and_nav_noop ⟨1, [0], 0, 0, none, none, 5000, false⟩ (fun _ => 0)
      (by decide) (by decide)⟩

theorem resetSlideshowTimer_on_running (s : EngineState)
    (h : s.intervalPeriod.isSome) :
    (resetSlideshowTimer s).intervalPeriod = none ∧
    (resetSlideshowTimer s).pendingStart = some resetSettleDelayMs := by
  unfold resetSlideshowTimer stopSlideshow
  simp [h]

/-- Counterexample to claim C3 as stated: a valid active playback state
(cursor in bounds and in lockstep, non-empty selection, interval live) on
which the Restart operation breaks the lockstep, because the handler resets
currentImageIndex to 0 without relocating currentOrderIndex. -/
theorem restart_breaks_cursor_lockstep :
    cursorInv (⟨2, [1, 0], 0, 1, some 5000, none, 5000, true⟩ : EngineState) ∧
    0 < (⟨2, [1, 0], 0, 1, some 5000, none, 5000, true⟩ : EngineState).selectedCount ∧
    (⟨2, [1, 0], 0, 1, some 5000, none, 5000, true⟩ :
        EngineState).intervalPeriod.isSome = true ∧
    ¬ cursorInv (restartClick ⟨2, [1, 0], 0, 1, some 5000, none, 5000, true⟩) := by
  decide

/-- Claim C3 amended: after Enter, Advance, Retreat or Reshuffle executed from
an active state with a non-empty selection whose display order is a
permutation of the selected indices and whose cursor satisfies the invariant,
the cursor again satisfies 0 ≤ orderPosition < len(displayOrder) and
imageIndex = displayOrder[orderPosition].  Restart is excluded: it sets
imageIndex to 0 without relocating orderPosition, so lockstep fails whenever
displayOrder[orderPosition] ≠ 0. -/
theorem cursor_invariant_preserved_without_restart
    (s : EngineState) (c : Nat → Nat) (checked : Bool)
    (hsel : 0 < s.selectedCount)
    (hperm : s.displayOrder.Perm (List.range s.selectedCount))
    (hcur : cursorInv s) (hc : ∀ i, c i ≤ i) :
    cursorInv (handleFullscreenEnter c s).1 ∧
    cursorInv (nextImage s) ∧
    cursorInv (previousImage s) ∧
    cursorInv (toggleRandomize checked c s) := by
  have hlen : s.displayOrder.length = s.selectedCount := by
    simpa using hperm.length_eq
  have hlen0 : 0 < s.displayOrder.length := by omega
  refine ⟨?_, ?_, ?_, ?_⟩
  · unfold handleFullscreenEnter
    rw [if_neg (by omega)]
    unfold cursorInv
    simp only [startSlideshow_displayOrder, startSlideshow_currentOrderIndex,
      startSlideshow_currentImageIndex]
    have hg := generateDisplayOrder_length s.selectedCount s.randomizeOrder c hc
    exact ⟨by simpa [hg] using hsel, trivial⟩
  · rw [nextImage_eq s (by omega)]
    unfold cursorInv
    simp only [resetSlideshowTimer_displayOrder, resetSlideshowTimer_currentOrderIndex,
      resetSlideshowTimer_currentImageIndex]
    exact ⟨Nat.mod_lt _ hlen0, trivial⟩
  · rw [previousImage_eq s (by omega)]
    unfold cursorInv
    simp only [resetSlideshowTimer_displayOrder, resetSlideshowTimer_currentOrderIndex,
      resetSlideshowTimer_currentImageIndex]
    exact ⟨Nat.mod_lt _ hlen0, trivial⟩
  · unfold toggleRandomize
    dsimp only
    by_cases hrun : s.intervalPeriod.isSome
    · rw [if_pos hrun]
      have hordperm : (generateDisplayOrder s.selectedCount checked c).Perm
          (List.range s.selectedCount) :=
        generateDisplayOrder_perm s.selectedCount checked c hc
      have hmem : s.currentImageIndex ∈ generateDisplayOrder s.selectedCount checked c := by
        have h2 : s.currentImageIndex ∈ s.displayOrder := by
          rw [hcur.2, List.getD_eq_getElem s.displayOrder 0 hcur.1]
          exact List.getElem_mem hcur.1
        exact hordperm.mem_iff.2 (hperm.mem_iff.1 h2)
      have hf : (generateDisplayOrder s.selectedCount checked c).indexOf
          s.currentImageIndex < (generateDisplayOrder s.selectedCount checked c).length :=
        List.indexOf_lt_length.2 hmem
      unfold cursorInv
      dsimp only
      rw [if_pos hf]
      refine ⟨hf, ?_⟩
      rw [List.getD_eq_getElem _ 0 hf]
      exact (List.getElem_indexOf hf).symm
    · rw [if_neg hrun]
      unfold cursorInv at hcur ⊢
      exact hcur

/-- Witness for the amended C3 on a concrete live two-image state. -/
theorem cursor_invariant_preserved_without_restart_witness :
    (0 < (⟨2, [0, 1], 0, 0, some 5000, none, 5000, false⟩ : EngineState).selectedCount ∧
      (⟨2, [0, 1], 0, 0, some 5000, none, 5000, false⟩ : EngineState).displayOrder.Perm
        (List.range (⟨2, [0, 1], 0, 0, some 5000, none, 5000, false⟩ :
          EngineState).selectedCount) ∧
      cursorInv (⟨2, [0, 1], 0, 0, some 5000, none, 5000, false⟩ : EngineState)) ∧
    (cursorInv (handleFullscreenEnter (fun _ => 0)
        ⟨2, [0, 1], 0, 0, some 5000, none, 5000, false⟩).1 ∧
      cursorInv (nextImage ⟨2, [0, 1], 0, 0, some 5000, none, 5000, false⟩) ∧
      cursorInv (previousImage ⟨2, [0, 1], 0, 0, some 5000, none, 5000, false⟩) ∧
      cursorInv (toggleRandomize true (fun _ => 0)
        ⟨2, [0, 1], 0, 0, some 5000, none, 5000, false⟩)) :=
  ⟨⟨by decide, by decide, by decide⟩,
    cursor_invariant_preserved_without_restart
      ⟨2, [0, 1], 0, 0, some 5000, none, 5000, false⟩ (fun _ => 0) true
      (by decide) (by decide) (by decide) (fun i => Nat.zero_le i)⟩

/-- Claim C4 counterexample (the claim as stated is false on the code): from a
live two-image slideshow with a 5000 ms duration, a manual Advance leaves no
interval and a queued 600 ms restart, so the next auto-advance is 5600 ms
away, not the full configured duration. -/
theorem manual_nav_timer_restart_not_immediate :
    delayUntilNextAutoAdvance
        (nextImage ⟨2, [0, 1], 0, 0, some 5000, none, 5000, false⟩) = some 5600 ∧
    (nextImage ⟨2, [0, 1], 0, 0, some 5000, none, 5000, false⟩).intervalPeriod = none ∧
    (nextImage ⟨2, [0, 1], 0, 0, some 5000, none, 5000, false⟩).pendingStart = some 600 ∧
    (5600 : Int) ≠
      (⟨2, [0, 1], 0, 0, some 5000, none, 5000, false⟩ : EngineState).displayDuration := by
  decide

/-- Claim C4 amended: every Advance or Retreat performed while the
auto-advance interval is live cancels the existing schedule synchronously and
queues the restart of a fresh full-duration timer behind the 600 ms settle
delay, so the next auto-advance occurs the settle delay plus the full
configured duration after the manual navigation. -/
theorem manual_nav_resets_timer_after_settle_delay (s : EngineState)
    (hrun : s.intervalPeriod.isSome) (hmulti : 1 < s.selectedCount) :
    (nextImage s).intervalPeriod = none ∧
    (nextImage s).pendingStart = some resetSettleDelayMs ∧
    delayUntilNextAutoAdvance (nextImage s) =
      some (resetSettleDelayMs + s.displayDuration) ∧
    (previousImage s).intervalPeriod = none ∧
    (previousImage s).pendingStart = some resetSettleDelayMs ∧
    delayUntilNextAutoAdvance (previousImage s) =
      some (resetSettleDelayMs + s.displayDuration) := by
  have hsel0 : ¬ s.selectedCount = 0 := by omega
  rw [nextImage_eq s hsel0, previousImage_eq s hsel0]
  unfold resetSlideshowTimer stopSlideshow delayUntilNextAutoAdvance
  simp [hrun, hmulti]

/-- Witness for the amended C4 on a concrete live two-image state. -/
theorem manual_nav_resets_timer_after_settle_delay_witness :
    ((⟨2, [0, 1], 0, 0, some 5000, none, 5000, false⟩ :
        EngineState).intervalPeriod.isSome = true ∧
      1 < (⟨2, [0, 1], 0, 0, some 5000, none, 5000, false⟩ : EngineState).selectedCount) ∧
    ((nextImage ⟨2, [0, 1], 0, 0, some 5000, none, 5000, false⟩).intervalPeriod = none ∧
      (nextImage ⟨2, [0, 1], 0, 0, some 5000, none, 5000, false⟩).pendingStart =
        some resetSettleDelayMs ∧
      delayUntilNextAutoAdvance (nextImage ⟨2, [0, 1], 0, 0, some 5000, none, 5000, false⟩) =
        some (resetSettleDelayMs +
          (⟨2, [0, 1], 0, 0, some 5000, none, 5000, false⟩ : EngineState).displayDuration) ∧
      (previousImage ⟨2, [0, 1], 0, 0, some 5000, none, 5000, false⟩).intervalPeriod = none ∧
      (previousImage ⟨2, [0, 1], 0, 0, some 5000, none, 5000, false⟩).pendingStart =
        some resetSettleDelayMs ∧
      delayUntilNextAutoAdvance
          (previousImage ⟨2, [0, 1], 0, 0, some 5000, none, 5000, false⟩) =
        some (resetSettleDelayMs +
          (⟨2, [0, 1], 0, 0, some 5000, none, 5000, false⟩ : EngineState).displayDuration)) :=
  ⟨⟨by decide, by decide⟩,
    manual_nav_resets_timer_after_settle_delay
      ⟨2, [0, 1], 0, 0, some 5000, none, 5000, false⟩ (by decide) (by decide)⟩

/-- Claim C5 (code bug in displayImage): when the target image load completes
immediately (time 0, as for a preloaded image), the source swap runs at 250 ms
while the fade-out of the current image only completes at 500 ms, so the
visible source is swapped before its fade-out finishes. -/
theorem source_swap_precedes_fadeout_completion :
    sourceSwapTime 0 < fadeOutCompleteTime ∧
    sourceSwapTime 0 = 250 ∧ fadeOutCompleteTime = 500 := by
  decide

/-- Claim C8: with zero selected images, the start button click is rejected
with a user-visible message and changes nothing, and even a forced fullscreen
entry is rejected with a message and changes nothing: no display order, no
cursor and no timer are created. -/
theorem empty_selection_enter_rejected (s : EngineState) (c : Nat → Nat)
    (p : Option Int) (checked : Bool) (hsel : s.selectedCount = 0) :
    startButtonClick p checked s = (s, ["No images available to display."]) ∧
    handleFullscreenEnter c s =
      (s, ["No images selected. Please select at least one image."]) := by
  unfold startButtonClick handleFullscreenEnter
  constructor <;> simp [hsel]

/-- Witness for C8 on the concrete empty-selection state. -/
theorem empty_selection_enter_rejected_witness :
    (⟨0, [], 0, 0, none, none, 5000, false⟩ : EngineState).selectedCount = 0 ∧
    (startButtonClick none false ⟨0, [], 0, 0, none, none, 5000, false⟩ =
        (⟨0, [], 0, 0, none, none, 5000, false⟩,
          ["No images available to display."]) ∧
      handleFullscreenEnter (fun _ => 0) ⟨0, [], 0, 0, none, none, 5000, false⟩ =
        (⟨0, [], 0, 0, none, none, 5000, false⟩,
          ["No images selected. Please select at least one image."])) :=
  ⟨by decide,
    empty_selection_enter_rejected ⟨0, [], 0, 0, none, none, 5000, false⟩ (fun _ => 0)
      none false (by decide)⟩

/-- Claim C9: a Reshuffle performed while the slideshow interval is live
leaves the cursor imageIndex unchanged, replaces displayOrder with the newly
generated order, relocates orderPosition to the position of the current
imageIndex when the new order contains it, and falls back to position 0 when
it does not. -/
theorem reshuffle_preserves_current_image (s : EngineState) (checked : Bool)
    (c : Nat → Nat) (hrun : s.intervalPeriod.isSome) :
    (toggleRandomize checked c s).currentImageIndex = s.currentImageIndex ∧
    (toggleRandomize checked c s).displayOrder =
      generateDisplayOrder s.selectedCount checked c ∧
    (s.currentImageIndex ∈ generateDisplayOrder s.selectedCount checked c →
      (toggleRandomize checked c s).displayOrder.getD
          (toggleRandomize checked c s).currentOrderIndex 0 = s.currentImageIndex) ∧
    (s.currentImageIndex ∉ generateDisplayOrder s.selectedCount checked c →
      (toggleRandomize checked c s).currentOrderIndex = 0) := by
  unfold toggleRandomize
  simp only [hrun, if_true]
  refine ⟨trivial, trivial, fun hmem => ?_, fun hnm => ?_⟩
  · have hf : (generateDisplayOrder s.selectedCount checked c).indexOf
        s.currentImageIndex < (generateDisplayOrder s.selectedCount checked c).length :=
      List.indexOf_lt_length.2 hmem
    rw [if_pos hf, List.getD_eq_getElem _ 0 hf]
    exact List.getElem_indexOf hf
  · have hf : ¬ (generateDisplayOrder s.selectedCount checked c).indexOf
        s.currentImageIndex < (generateDisplayOrder s.selectedCount checked c).length :=
      fun h => hnm (List.indexOf_lt_length.1 h)
    rw [if_neg hf]

/-- Witness for C9: the spec scenario of a reshuffle at image index 2 in a
three-item order while the interval is live. -/
theorem reshuffle_preserves_current_image_witness :
    (⟨3, [0, 1, 2], 2, 2, some 5000, none, 5000, false⟩ :
        EngineState).intervalPeriod.isSome = true ∧
    ((toggleRandomize true (fun _ => 0)
          ⟨3, [0, 1, 2], 2, 2, some 5000, none, 5000, false⟩).currentImageIndex =
        (⟨3, [0, 1, 2], 2, 2, some 5000, none, 5000, false⟩ :
          EngineState).currentImageIndex ∧
      (toggleRandomize true (fun _ => 0)
          ⟨3, [0, 1, 2], 2, 2, some 5000, none, 5000, false⟩).displayOrder =
        generateDisplayOrder 3 true (fun _ => 0) ∧
      ((⟨3, [0, 1, 2], 2, 2, some 5000, none, 5000, false⟩ :
            EngineState).currentImageIndex ∈ generateDisplayOrder 3 true (fun _ => 0) →
        (toggleRandomize true (fun _ => 0)
              ⟨3, [0, 1, 2], 2, 2, some 5000, none, 5000, false⟩).displayOrder.getD
            (toggleRandomize true (fun _ => 0)
              ⟨3, [0, 1, 2], 2, 2, some 5000, none, 5000, false⟩).currentOrderIndex 0 =
          (⟨3, [0, 1, 2], 2, 2, some 5000, none, 5000, false⟩ :
            EngineState).currentImageIndex) ∧
      ((⟨3, [0, 1, 2], 2, 2, some 5000, none, 5000, false⟩ :
            EngineState).currentImageIndex ∉ generateDisplayOrder 3 true (fun _ => 0) →
        (toggleRandomize true (fun _ => 0)
            ⟨3, [0, 1, 2], 2, 2, some 5000, none, 5000, false⟩).currentOrderIndex = 0)) :=
  ⟨by decide,
    reshuffle_preserves_current_image ⟨3, [0, 1, 2], 2, 2, some 5000, none, 5000, false⟩
      true (fun _ => 0) (by decide)⟩

/-- Claim C10: when the duration input does not parse to a number, or parses
to a value below 1 second, starting the slideshow silently falls back to the
5000 ms display duration and writes 5 back into the input. -/
theorem invalid_duration_input_falls_back (p : Option Int)
    (h : p = none ∨ ∃ v, p = some v ∧ v < 1) :
    requestFullscreenDuration p = (5000, some 5) := by
  rcases h with h | ⟨v, hp, hv⟩
  · subst h
    rfl
  · subst hp
    have hlt : v * 1000 < 1000 := by omega
    simp only [requestFullscreenDuration]
    rw [if_pos hlt]

/-- Witness for C10 at the parsed value 0 (a below-minimum input). -/
theorem invalid_duration_input_falls_back_witness :
    ((some 0 : Option Int) = none ∨ ∃ v, (some 0 : Option Int) = some v ∧ v < 1) ∧
    requestFullscreenDuration (some 0) = (5000, some 5) :=
  ⟨Or.inr ⟨0, rfl, by decide⟩,
    invalid_duration_input_falls_back (some 0) (Or.inr ⟨0, rfl, by decide⟩)⟩

end Screensaver
